import Mathlib

/-
Verification of the KYC risk-assessment and portfolio-optimization core of
the `ra` repository.  Python floats are embedded as exact rationals (ℚ); the
few computations that need square roots or real exponents are embedded over ℝ.
Python `int` scores are embedded as ℤ.  Dictionaries iterated in declaration
order are embedded as lists in the same order (Python 3.7+ dicts preserve
insertion order).
-/

/-! ## KYC data model (src/kyc/models.py) -/

/-- Raw responses from the KYC questionnaire (`KYCResponse` in
src/kyc/models.py).  Each score is an integer; `__post_init__` validates that
every field lies in [0,100], which we state as `validResponse`. -/
structure KYCResponse where
  horizon_score : ℤ
  loss_tolerance : ℤ
  experience_score : ℤ
  financial_score : ℤ
  goal_score : ℤ
  sleep_score : ℤ
deriving DecidableEq

/-- The validation performed by `KYCResponse.__post_init__`: every field is an
integer in [0,100]. -/
def validResponse (r : KYCResponse) : Prop :=
  0 ≤ r.horizon_score ∧ r.horizon_score ≤ 100 ∧
  0 ≤ r.loss_tolerance ∧ r.loss_tolerance ≤ 100 ∧
  0 ≤ r.experience_score ∧ r.experience_score ≤ 100 ∧
  0 ≤ r.financial_score ∧ r.financial_score ≤ 100 ∧
  0 ≤ r.goal_score ∧ r.goal_score ≤ 100 ∧
  0 ≤ r.sleep_score ∧ r.sleep_score ≤ 100

instance (r : KYCResponse) : Decidable (validResponse r) := by
  unfold validResponse; infer_instance

/-- `InconsistencyType` enum from src/kyc/models.py. -/
inductive InconsistencyType where
  | shortHorizonHighRisk
  | inexperiencedAggressive
  | lowCapacityHighAppetite
  | sleepLossMismatch
deriving DecidableEq

/-- The `suggested_action` strings attached to the consistency rules in
src/kyc/constants.py, as a closed enumeration. -/
inductive SuggestedAction where
  | reduceRiskScore        -- "reduce_risk_score"
  | capAtModerate          -- "cap_at_moderate"
  | reduceToConservative   -- "reduce_to_conservative"
  | useConservativeScore   -- "use_conservative_score"
deriving DecidableEq

/-- Severity of a detected inconsistency ("warning" or "error"). -/
inductive Severity where
  | warning
  | error
deriving DecidableEq

/-- `KYCInconsistency` dataclass from src/kyc/models.py (messages dropped:
they do not affect control flow). -/
structure KYCInconsistency where
  type : InconsistencyType
  suggested_action : SuggestedAction
  severity : Severity
deriving DecidableEq

/-! ## KYC constants (src/kyc/constants.py) -/

/-- `SCORING_WEIGHTS['horizon']`. -/
def wHorizon : ℚ := 0.25
/-- `SCORING_WEIGHTS['loss_tolerance']`. -/
def wLossTolerance : ℚ := 0.30
/-- `SCORING_WEIGHTS['experience']`. -/
def wExperience : ℚ := 0.20
/-- `SCORING_WEIGHTS['financial']`. -/
def wFinancial : ℚ := 0.15
/-- `SCORING_WEIGHTS['goal']`. -/
def wGoal : ℚ := 0.10

/-- The condition predicate of each entry of `CONSISTENCY_RULES`
(src/kyc/constants.py lines 184-216). -/
def ruleCondition : InconsistencyType → KYCResponse → Bool
  | .shortHorizonHighRisk, r => r.horizon_score < 30 && r.loss_tolerance > 70
  | .inexperiencedAggressive, r => r.experience_score < 30 && r.goal_score > 80
  | .lowCapacityHighAppetite, r => r.financial_score < 40 && r.loss_tolerance > 60
  | .sleepLossMismatch, r => |r.sleep_score - r.loss_tolerance| > 40

/-- The `suggested_action` of each entry of `CONSISTENCY_RULES`. -/
def ruleAction : InconsistencyType → SuggestedAction
  | .shortHorizonHighRisk => .reduceRiskScore
  | .inexperiencedAggressive => .capAtModerate
  | .lowCapacityHighAppetite => .reduceToConservative
  | .sleepLossMismatch => .useConservativeScore

/-- The `severity` of each entry of `CONSISTENCY_RULES`.  Only
LOW_CAPACITY_HIGH_APPETITE is an error (it blocks portfolio calculation). -/
def ruleSeverity : InconsistencyType → Severity
  | .lowCapacityHighAppetite => .error
  | _ => .warning

/-- The keys of `CONSISTENCY_RULES` in declaration order (the order in which
`_validate_consistency` iterates the dict). -/
def consistencyRuleOrder : List InconsistencyType :=
  [.shortHorizonHighRisk, .inexperiencedAggressive,
   .lowCapacityHighAppetite, .sleepLossMismatch]

/-- Keys of `RISK_CATEGORIES` (Hebrew strings in the source, embedded as a
closed enumeration, in dict declaration order). -/
inductive CategoryKey where
  | ultraConservative   -- 'שמרני_מאוד'
  | conservative        -- 'שמרני'
  | moderate            -- 'מתון'
  | aggressive          -- 'אגרסיבי'
  | veryAggressive      -- 'אגרסיבי_מאוד'
deriving DecidableEq

/-- One value of the `RISK_CATEGORIES` table (src/kyc/constants.py lines
13-98); Hebrew descriptions dropped. -/
structure RiskCategoryData where
  score_range : ℚ × ℚ
  name_en : String
  max_drawdown : ℚ
  target_volatility : ℚ
  recovery_time_months : ℕ
  equity_range : ℚ × ℚ
  international_max : ℚ
  alternatives_max : ℚ
deriving DecidableEq

/-- The `RISK_CATEGORIES` table from src/kyc/constants.py. -/
def categoryData : CategoryKey → RiskCategoryData
  | .ultraConservative =>
      { score_range := (0, 25), name_en := "Ultra Conservative",
        max_drawdown := 0.03, target_volatility := 0.04,
        recovery_time_months := 6, equity_range := (0.05, 0.20),
        international_max := 0.15, alternatives_max := 0.02 }
  | .conservative =>
      { score_range := (26, 45), name_en := "Conservative",
        max_drawdown := 0.08, target_volatility := 0.08,
        recovery_time_months := 12, equity_range := (0.15, 0.40),
        international_max := 0.25, alternatives_max := 0.05 }
  | .moderate =>
      { score_range := (46, 65), name_en := "Moderate",
        max_drawdown := 0.15, target_volatility := 0.12,
        recovery_time_months := 24, equity_range := (0.30, 0.65),
        international_max := 0.40, alternatives_max := 0.10 }
  | .aggressive =>
      { score_range := (66, 85), name_en := "Aggressive",
        max_drawdown := 0.25, target_volatility := 0.18,
        recovery_time_months := 36, equity_range := (0.55, 0.80),
        international_max := 0.60, alternatives_max := 0.20 }
  | .veryAggressive =>
      { score_range := (86, 100), name_en := "Very Aggressive",
        max_drawdown := 0.40, target_volatility := 0.22,
        recovery_time_months := 48, equity_range := (0.70, 0.95),
        international_max := 0.80, alternatives_max := 0.30 }

/-- Iteration order of the `RISK_CATEGORIES` dict. -/
def categoryOrder : List CategoryKey :=
  [.ultraConservative, .conservative, .moderate, .aggressive, .veryAggressive]

/-! ## KYC risk assessor (src/kyc/risk_assessor.py) -/

/-- `KYCRiskAssessor._validate_consistency`: evaluate each consistency rule in
declaration order, collecting a `KYCInconsistency` for every rule whose
condition holds. -/
def validateConsistency (r : KYCResponse) : List KYCInconsistency :=
  consistencyRuleOrder.filterMap fun t =>
    if ruleCondition t r then
      some { type := t, suggested_action := ruleAction t, severity := ruleSeverity t }
    else none

/-- `KYCRiskAssessor._calculate_composite_score`: weighted sum over the five
scored dimensions (sleep_test excluded). -/
def compositeScore (r : KYCResponse) : ℚ :=
  (r.horizon_score : ℚ) * wHorizon +
  (r.loss_tolerance : ℚ) * wLossTolerance +
  (r.experience_score : ℚ) * wExperience +
  (r.financial_score : ℚ) * wFinancial +
  (r.goal_score : ℚ) * wGoal

/-- One iteration of the adjustment loop in
`KYCRiskAssessor._apply_consistency_adjustments` (lines 165-193). -/
def applyAdjustment (r : KYCResponse) (score : ℚ) (inc : KYCInconsistency) : ℚ :=
  match inc.suggested_action with
  | .reduceRiskScore => score * 0.8
  | .capAtModerate => min score 65
  | .reduceToConservative => min score 45
  | .useConservativeScore =>
      -- recompute the composite with the more conservative of sleep vs loss
      let conservative : ℚ := min (r.sleep_score : ℚ) (r.loss_tolerance : ℚ)
      (r.horizon_score : ℚ) * wHorizon +
      conservative * wLossTolerance +
      (r.experience_score : ℚ) * wExperience +
      (r.financial_score : ℚ) * wFinancial +
      (r.goal_score : ℚ) * wGoal

/-- `KYCRiskAssessor._apply_consistency_adjustments`: fold the adjustments over
the detected inconsistencies in order, then clamp to [0,100]
(`max(0, min(100, adjusted_score))`). -/
def applyConsistencyAdjustments (score : ℚ) (r : KYCResponse)
    (incs : List KYCInconsistency) : ℚ :=
  max 0 (min 100 (incs.foldl (applyAdjustment r) score))

/-- Python `int()` truncation toward zero on a rational. -/
def pyInt (q : ℚ) : ℤ := if 0 ≤ q then ⌊q⌋ else -⌊-q⌋

/-- `KYCRiskAssessor._score_to_risk_level`: convert a composite score to a
1-10 risk level (branch thresholds 25/45/65/85 are hardcoded there). -/
def scoreToRiskLevel (score : ℚ) : ℤ :=
  if score ≤ 25 then max 1 (min 3 (pyInt (1 + score / 25 * 2)))
  else if score ≤ 45 then max 3 (min 5 (pyInt (3 + (score - 25) / 20 * 2)))
  else if score ≤ 65 then max 5 (min 7 (pyInt (5 + (score - 45) / 20 * 2)))
  else if score ≤ 85 then max 7 (min 9 (pyInt (7 + (score - 65) / 20 * 2)))
  else max 9 (min 10 (pyInt (9 + (score - 85) / 15 * 1)))

/-- `KYCRiskAssessor._map_to_risk_category`: first category (in dict order)
whose `score_range` contains the score, else the fallback `('מתון', 5)`
(Moderate) guarded by the source comment "shouldn't happen with proper
bounds". -/
def mapToRiskCategory (score : ℚ) : CategoryKey × ℤ :=
  match categoryOrder.find? (fun k =>
      (categoryData k).score_range.1 ≤ score ∧ score ≤ (categoryData k).score_range.2) with
  | some k => (k, scoreToRiskLevel score)
  | none => (.moderate, 5)

/-- The `RiskProfile` dataclass from src/kyc/models.py (assessment timestamp
dropped). -/
structure RiskProfile where
  risk_level : ℤ
  category : CategoryKey
  category_english : String
  composite_score : ℚ
  max_drawdown : ℚ
  target_volatility : ℚ
  recovery_time_months : ℕ
  equity_range : ℚ × ℚ
  international_max : ℚ
  alternatives_max : ℚ
  inconsistencies : List KYCInconsistency
  confidence_score : ℚ
deriving DecidableEq

/-- `RiskProfile.is_consistent`: no error-level inconsistency. -/
def RiskProfile.isConsistent (p : RiskProfile) : Bool :=
  !(p.inconsistencies.any fun i => i.severity == Severity.error)

/-- `KYCRiskAssessor._create_risk_profile`: package category data plus the
confidence score `max(0.5, 1 - 0.1 * warnings)`. -/
def createRiskProfile (level : ℤ) (cat : CategoryKey) (score : ℚ)
    (incs : List KYCInconsistency) : RiskProfile :=
  let d := categoryData cat
  let warnings := (incs.filter fun i => i.severity == Severity.warning).length
  { risk_level := level, category := cat, category_english := d.name_en,
    composite_score := score,
    max_drawdown := d.max_drawdown, target_volatility := d.target_volatility,
    recovery_time_months := d.recovery_time_months,
    equity_range := d.equity_range, international_max := d.international_max,
    alternatives_max := d.alternatives_max,
    inconsistencies := incs,
    confidence_score := max 0.5 (1 - (warnings : ℚ) * 0.1) }

/-- `KYCRiskAssessor.process_responses`: validate, detect inconsistencies,
compute the composite, adjust it, map to a category, and build the profile.
A validation failure (`ValueError`) is `none`. -/
def processResponses (r : KYCResponse) : Option RiskProfile :=
  if validResponse r then
    let incs := validateConsistency r
    let c := compositeScore r
    let adjusted := applyConsistencyAdjustments c r incs
    some (createRiskProfile (mapToRiskCategory adjusted).2 (mapToRiskCategory adjusted).1
      adjusted incs)
  else none

/-! ## Portfolio-calculation entry point (src/main.py, `calculate_portfolio`) -/

/-- Outcome of the `/api/calculate-portfolio` endpoint: a validation error
propagates (`invalid`), error-severity inconsistencies yield a structured
blocked result carrying exactly those inconsistencies, otherwise the optimizer
runs and its output is returned alongside the risk assessment. -/
inductive PortfolioOutcome (α : Type) where
  | invalid : PortfolioOutcome α
  | blocked : List KYCInconsistency → PortfolioOutcome α
  | result : RiskProfile → α → PortfolioOutcome α
deriving DecidableEq

/-- `calculate_portfolio` from src/main.py (lines 98-213): process the KYC
responses; if the profile has error-severity inconsistencies return the
blocked dict (the optimizer is not invoked — the outcome does not depend on
`optimize`); otherwise run the optimizer and wrap its result. -/
def calculatePortfolio {α : Type} (r : KYCResponse)
    (optimize : RiskProfile → α) : PortfolioOutcome α :=
  match processResponses r with
  | none => .invalid
  | some profile =>
      let errorIncs := profile.inconsistencies.filter fun i => i.severity == Severity.error
      if errorIncs.isEmpty then .result profile (optimize profile)
      else .blocked errorIncs

/-! ## Helper lemmas for the KYC theorems -/

/-- Explicit form of `validateConsistency` as four independent if-blocks in
rule-declaration order. -/
theorem validateConsistency_eq (r : KYCResponse) :
    validateConsistency r =
      (if ruleCondition .shortHorizonHighRisk r then
        [⟨.shortHorizonHighRisk, .reduceRiskScore, .warning⟩] else []) ++
      (if ruleCondition .inexperiencedAggressive r then
        [⟨.inexperiencedAggressive, .capAtModerate, .warning⟩] else []) ++
      (if ruleCondition .lowCapacityHighAppetite r then
        [⟨.lowCapacityHighAppetite, .reduceToConservative, .error⟩] else []) ++
      (if ruleCondition .sleepLossMismatch r then
        [⟨.sleepLossMismatch, .useConservativeScore, .warning⟩] else []) := by
  unfold validateConsistency consistencyRuleOrder
  cases h1 : ruleCondition .shortHorizonHighRisk r <;>
  cases h2 : ruleCondition .inexperiencedAggressive r <;>
  cases h3 : ruleCondition .lowCapacityHighAppetite r <;>
  cases h4 : ruleCondition .sleepLossMismatch r <;>
  simp [h1, h2, h3, h4, ruleAction, ruleSeverity, List.filterMap]

/-- Bounds on one adjustment step: starting from a value in `[0, compositeScore r]`,
every suggested action lands back in `[0, compositeScore r]`. -/
theorem applyAdjustment_bounds (r : KYCResponse) (hv : validResponse r)
    (x : ℚ) (hx0 : 0 ≤ x) (hxc : x ≤ compositeScore r) (inc : KYCInconsistency) :
    0 ≤ applyAdjustment r x inc ∧ applyAdjustment r x inc ≤ compositeScore r := by
  obtain ⟨h1, h2, h3, h4, h5, h6, h7, h8, h9, h10, h11, h12⟩ := hv
  have c1 : (0 : ℚ) ≤ (r.horizon_score : ℚ) := by exact_mod_cast h1
  have c3 : (0 : ℚ) ≤ (r.loss_tolerance : ℚ) := by exact_mod_cast h3
  have c5 : (0 : ℚ) ≤ (r.experience_score : ℚ) := by exact_mod_cast h5
  have c7 : (0 : ℚ) ≤ (r.financial_score : ℚ) := by exact_mod_cast h7
  have c9 : (0 : ℚ) ≤ (r.goal_score : ℚ) := by exact_mod_cast h9
  have c11 : (0 : ℚ) ≤ (r.sleep_score : ℚ) := by exact_mod_cast h11
  have hminl : min ((r.sleep_score : ℚ)) ((r.loss_tolerance : ℚ)) ≤ (r.loss_tolerance : ℚ) :=
    min_le_right _ _
  have hmin0 : (0 : ℚ) ≤ min ((r.sleep_score : ℚ)) ((r.loss_tolerance : ℚ)) :=
    le_min c11 c3
  rcases inc with ⟨t, a, s⟩
  cases a <;>
    simp only [applyAdjustment, compositeScore, wHorizon, wLossTolerance, wExperience,
      wFinancial, wGoal] at * <;>
    constructor
  · nlinarith
  · nlinarith
  · exact le_min hx0 (by norm_num)
  · exact le_trans (min_le_left _ _) hxc
  · exact le_min hx0 (by norm_num)
  · exact le_trans (min_le_left _ _) hxc
  · nlinarith
  · nlinarith

/-- Folding the adjustment loop stays within `[0, compositeScore r]`. -/
theorem foldl_applyAdjustment_bounds (r : KYCResponse) (hv : validResponse r) :
    ∀ (incs : List KYCInconsistency) (x : ℚ), 0 ≤ x → x ≤ compositeScore r →
      0 ≤ incs.foldl (applyAdjustment r) x ∧
      incs.foldl (applyAdjustment r) x ≤ compositeScore r
  | [], x, hx0, hxc => ⟨hx0, hxc⟩
  | inc :: rest, x, hx0, hxc => by
      have h := applyAdjustment_bounds r hv x hx0 hxc inc
      simpa using foldl_applyAdjustment_bounds r hv rest _ h.1 h.2

/-- The unadjusted composite of a valid response lies in [0, 100]. -/
theorem compositeScore_bounds (r : KYCResponse) (hv : validResponse r) :
    0 ≤ compositeScore r ∧ compositeScore r ≤ 100 := by
  obtain ⟨h1, h2, h3, h4, h5, h6, h7, h8, h9, h10, h11, h12⟩ := hv
  have c1 : (0 : ℚ) ≤ (r.horizon_score : ℚ) := by exact_mod_cast h1
  have c2 : (r.horizon_score : ℚ) ≤ 100 := by exact_mod_cast h2
  have c3 : (0 : ℚ) ≤ (r.loss_tolerance : ℚ) := by exact_mod_cast h3
  have c4 : (r.loss_tolerance : ℚ) ≤ 100 := by exact_mod_cast h4
  have c5 : (0 : ℚ) ≤ (r.experience_score : ℚ) := by exact_mod_cast h5
  have c6 : (r.experience_score : ℚ) ≤ 100 := by exact_mod_cast h6
  have c7 : (0 : ℚ) ≤ (r.financial_score : ℚ) := by exact_mod_cast h7
  have c8 : (r.financial_score : ℚ) ≤ 100 := by exact_mod_cast h8
  have c9 : (0 : ℚ) ≤ (r.goal_score : ℚ) := by exact_mod_cast h9
  have c10 : (r.goal_score : ℚ) ≤ 100 := by exact_mod_cast h10
  unfold compositeScore wHorizon wLossTolerance wExperience wFinancial wGoal
  constructor <;> nlinarith

/-! ## Claim C3 -/

/-- C3: for every six-field response, the unadjusted composite score equals
`horizon*0.25 + loss_tolerance*0.30 + experience*0.20 + financial*0.15 +
goal*0.10`, and the sleep dimension is excluded from scoring (changing it does
not change the composite). -/
theorem C3_composite_weighted_sum (r : KYCResponse) :
    compositeScore r =
      (r.horizon_score : ℚ) * 0.25 + (r.loss_tolerance : ℚ) * 0.30 +
      (r.experience_score : ℚ) * 0.20 + (r.financial_score : ℚ) * 0.15 +
      (r.goal_score : ℚ) * 0.10 ∧
    ∀ s : ℤ, compositeScore { r with sleep_score := s } = compositeScore r := by
  exact ⟨rfl, fun s => rfl⟩

/-! ## Claim C10 -/

/-- C10: for every valid response and every list of triggered consistency
adjustments, the adjusted composite score is never greater than the unadjusted
weighted-sum composite and always lies in [0,100]. -/
theorem C10_adjusted_score_bounded (r : KYCResponse) (hv : validResponse r)
    (incs : List KYCInconsistency) :
    applyConsistencyAdjustments (compositeScore r) r incs ≤ compositeScore r ∧
    0 ≤ applyConsistencyAdjustments (compositeScore r) r incs ∧
    applyConsistencyAdjustments (compositeScore r) r incs ≤ 100 := by
  obtain ⟨hc0, hc100⟩ := compositeScore_bounds r hv
  obtain ⟨hf0, hfc⟩ :=
    foldl_applyAdjustment_bounds r hv incs (compositeScore r) hc0 le_rfl
  unfold applyConsistencyAdjustments
  have hmin : min 100 (incs.foldl (applyAdjustment r) (compositeScore r)) =
      incs.foldl (applyAdjustment r) (compositeScore r) :=
    min_eq_right (le_trans hfc hc100)
  rw [hmin]
  exact ⟨max_le hc0 hfc, le_max_left _ _, max_le (by norm_num) (le_trans hfc hc100)⟩

/-- Witness for C10 at a concrete valid response and a concrete adjustment
list (the error-severity cap-at-45 rule). -/
theorem C10_adjusted_score_bounded_witness :
    validResponse ⟨50, 80, 50, 20, 50, 80⟩ ∧
    (applyConsistencyAdjustments (compositeScore ⟨50, 80, 50, 20, 50, 80⟩)
        ⟨50, 80, 50, 20, 50, 80⟩
        [⟨.lowCapacityHighAppetite, .reduceToConservative, .error⟩] ≤
      compositeScore ⟨50, 80, 50, 20, 50, 80⟩ ∧
    0 ≤ applyConsistencyAdjustments (compositeScore ⟨50, 80, 50, 20, 50, 80⟩)
        ⟨50, 80, 50, 20, 50, 80⟩
        [⟨.lowCapacityHighAppetite, .reduceToConservative, .error⟩] ∧
    applyConsistencyAdjustments (compositeScore ⟨50, 80, 50, 20, 50, 80⟩)
        ⟨50, 80, 50, 20, 50, 80⟩
        [⟨.lowCapacityHighAppetite, .reduceToConservative, .error⟩] ≤ 100) :=
  ⟨by decide,
   C10_adjusted_score_bounded ⟨50, 80, 50, 20, 50, 80⟩ (by decide)
     [⟨.lowCapacityHighAppetite, .reduceToConservative, .error⟩]⟩

/-- Computation lemma for the derived `BEq` on `Severity`. -/
theorem warning_beq_error : (Severity.warning == Severity.error) = false := rfl

/-- Computation lemma for the derived `BEq` on `Severity`. -/
theorem error_beq_error : (Severity.error == Severity.error) = true := rfl

/-! ## Claim C1 -/

/-- C1 (amended): for every valid response with `financial_score < 40` and
`loss_tolerance > 60`, the LOW_CAPACITY_HIGH_APPETITE inconsistency is flagged
with severity error, the portfolio entry point returns the structured blocked
result for every optimizer (so the optimizer never runs), and — whenever the
sleep/loss-mismatch rule does not also fire — the final composite score is
capped at 45. -/
theorem C1_low_capacity_blocks (r : KYCResponse) (hv : validResponse r)
    (hf : r.financial_score < 40) (hl : 60 < r.loss_tolerance) :
    ((⟨.lowCapacityHighAppetite, .reduceToConservative, .error⟩ : KYCInconsistency)
        ∈ validateConsistency r) ∧
    (∀ (α : Type) (optimize : RiskProfile → α),
      calculatePortfolio r optimize =
        .blocked [⟨.lowCapacityHighAppetite, .reduceToConservative, .error⟩]) ∧
    (ruleCondition .sleepLossMismatch r = false →
      ∀ p, processResponses r = some p → p.composite_score ≤ 45) := by
  have hcond : ruleCondition .lowCapacityHighAppetite r = true := by
    simp only [ruleCondition, Bool.and_eq_true, decide_eq_true_eq]
    omega
  refine ⟨?_, ?_, ?_⟩
  · rw [validateConsistency_eq, hcond]
    simp
  · intro α optimize
    unfold calculatePortfolio processResponses
    rw [if_pos hv]
    simp only [createRiskProfile]
    rw [validateConsistency_eq, hcond]
    cases h1 : ruleCondition .shortHorizonHighRisk r <;>
    cases h2 : ruleCondition .inexperiencedAggressive r <;>
    cases h4 : ruleCondition .sleepLossMismatch r <;>
    simp [List.filter, warning_beq_error, error_beq_error]
  · intro hs p hp
    unfold processResponses at hp
    rw [if_pos hv] at hp
    obtain rfl := Option.some.inj hp
    show applyConsistencyAdjustments _ _ _ ≤ 45
    rw [validateConsistency_eq, hcond, hs]
    have hcap : ∀ x : ℚ, max 0 (min 100 (min x 45)) ≤ 45 := fun x =>
      max_le (by norm_num) (le_trans (min_le_right _ _) (min_le_right _ _))
    cases h1 : ruleCondition .shortHorizonHighRisk r <;>
    cases h2 : ruleCondition .inexperiencedAggressive r <;>
    · unfold applyConsistencyAdjustments
      simp only [Bool.false_eq_true, ite_false, ite_true,
        List.nil_append, List.append_nil, List.cons_append, List.singleton_append,
        List.foldl, applyAdjustment]
      exact hcap _

/-- Witness for C1 at the spec scenario financial=20, loss_tolerance=80,
others=50 (sleep=80 keeps the mismatch rule silent). -/
theorem C1_low_capacity_blocks_witness :
    validResponse ⟨50, 80, 50, 20, 50, 80⟩ ∧
    (((⟨.lowCapacityHighAppetite, .reduceToConservative, .error⟩ : KYCInconsistency)
        ∈ validateConsistency ⟨50, 80, 50, 20, 50, 80⟩) ∧
     (∀ (α : Type) (optimize : RiskProfile → α),
       calculatePortfolio ⟨50, 80, 50, 20, 50, 80⟩ optimize =
         .blocked [⟨.lowCapacityHighAppetite, .reduceToConservative, .error⟩]) ∧
     (ruleCondition .sleepLossMismatch ⟨50, 80, 50, 20, 50, 80⟩ = false →
       ∀ p, processResponses ⟨50, 80, 50, 20, 50, 80⟩ = some p →
         p.composite_score ≤ 45)) :=
  ⟨by decide, C1_low_capacity_blocks ⟨50, 80, 50, 20, 50, 80⟩
    (by decide) (by decide) (by decide)⟩

/-- Counterexample for C1 as stated: the response (horizon=100, loss=100,
experience=100, financial=39, goal=100, sleep=59) satisfies financial<40 and
loss>60 and is flagged with the error-severity inconsistency, yet its final
composite score is 78.55 — the cap-at-45 adjustment is overwritten by the
subsequent sleep/loss-mismatch recomputation, so the composite is NOT capped
at 45. -/
theorem C1_cap_at_45_counterexample :
    validResponse ⟨100, 100, 100, 39, 100, 59⟩ ∧
    (⟨100, 100, 100, 39, 100, 59⟩ : KYCResponse).financial_score < 40 ∧
    60 < (⟨100, 100, 100, 39, 100, 59⟩ : KYCResponse).loss_tolerance ∧
    (processResponses ⟨100, 100, 100, 39, 100, 59⟩).map
        (fun p => (p.composite_score,
          p.inconsistencies.any fun i => i.severity == Severity.error)) =
      some (1571 / 20, true) ∧
    ¬ ((1571 / 20 : ℚ) ≤ 45) := by
  refine ⟨by decide, by decide, by decide, ?_, by norm_num⟩
  norm_num [processResponses, validResponse, validateConsistency, consistencyRuleOrder,
    ruleCondition, ruleAction, ruleSeverity, compositeScore, applyConsistencyAdjustments,
    applyAdjustment, wHorizon, wLossTolerance, wExperience, wFinancial, wGoal,
    createRiskProfile, mapToRiskCategory, categoryOrder, categoryData, scoreToRiskLevel,
    pyInt, List.filterMap, List.foldl, List.filter, List.find?]

/-! ## Claim C2 -/

/-- C2 (code bug): the category bands do not cover [0,100].  The valid
response (horizon=30, loss=60, experience=0, financial=0, goal=0, sleep=60)
produces adjusted composite 25.5 with no inconsistencies; 25.5 matches no
`score_range` (the ranges are (0,25), (26,45), (46,65), (66,85), (86,100)),
so `_map_to_risk_category` takes the fallback branch its own comment says
"shouldn't happen" and returns Moderate — whose band (46,65) does not contain
the score. -/
theorem C2_band_gap_code_bug :
    validResponse ⟨30, 60, 0, 0, 0, 60⟩ ∧
    validateConsistency ⟨30, 60, 0, 0, 0, 60⟩ = [] ∧
    (processResponses ⟨30, 60, 0, 0, 0, 60⟩).map
        (fun p => (p.composite_score, p.category, p.category_english,
          p.risk_level, p.equity_range)) =
      some (51 / 2, CategoryKey.moderate, "Moderate", 5, (0.30, 0.65)) ∧
    (∀ k ∈ categoryOrder,
      ¬ ((categoryData k).score_range.1 ≤ 51 / 2 ∧
         (51 / 2 : ℚ) ≤ (categoryData k).score_range.2)) := by
  refine ⟨by decide, by decide, ?_, ?_⟩
  · norm_num [processResponses, validResponse, validateConsistency, consistencyRuleOrder,
      ruleCondition, ruleAction, ruleSeverity, compositeScore, applyConsistencyAdjustments,
      applyAdjustment, wHorizon, wLossTolerance, wExperience, wFinancial, wGoal,
      createRiskProfile, mapToRiskCategory, categoryOrder, categoryData, scoreToRiskLevel,
      pyInt, List.filterMap, List.foldl, List.filter, List.find?]
  · intro k hk
    fin_cases hk <;> norm_num [categoryData]

/-! ## Numerical solver outcomes (src/portfolio/unified_optimizer.py,
src/portfolio/sortino_optimizer.py)

`scipy.optimize.minimize` is an external library call; its outcome — the
final iterate `x` plus the `success` flag it reports, or a raised exception —
is modelled as an oracle value fed to the embedded control flow. -/

/-- Result object returned by `scipy.optimize.minimize`: the final iterate and
the solver's own convergence flag. -/
structure SolverReport where
  x : List ℚ
  success : Bool
deriving DecidableEq

/-- `UnifiedPortfolioOptimizer._solve_optimization` (lines 202-221): start
from the CVXPy stage (equal weights if it raised), then run the SciPy stage.
`_solve_scipy_stage` returns `result.x` even when `result.success` is false
(lines 343-346 only log a warning); if the SciPy call raises, the pre-SciPy
weights are returned.  Consequently this function never raises. -/
def solveOptimization (n : ℕ) (cvxpyStage : Except Unit (List ℚ))
    (scipyStage : List ℚ → Except Unit SolverReport) : Except Unit (List ℚ) :=
  let initial := match cvxpyStage with
    | .ok w => w
    | .error _ => List.replicate n ((1 : ℚ) / n)
  match scipyStage initial with
  | .ok report => .ok report.x
  | .error _ => .ok initial

/-- `UnifiedPortfolioOptimizer.optimize_portfolio` (lines 164-200), restricted
to the weight vector and `optimization_success`: the flag records only whether
`_solve_optimization` raised; on an exception the simple rule-based fallback
allocation is used instead. -/
def unifiedOptimizeWeights (n : ℕ) (cvxpyStage : Except Unit (List ℚ))
    (scipyStage : List ℚ → Except Unit SolverReport)
    (fallback : List ℚ) : List ℚ × Bool :=
  match solveOptimization n cvxpyStage scipyStage with
  | .ok w => (w, true)
  | .error _ => (fallback, false)

/-- `SortinoOptimizer.optimize` (lines 237-273), restricted to the chosen
weight vector and the reported `optimization_success`: on solver failure the
fallback weights are substituted and the dict carries `result.success`. -/
def sortinoOptimizeWeights (report : SolverReport) (fallbackWeights : List ℚ) :
    List ℚ × Bool :=
  if report.success then (report.x, report.success)
  else (fallbackWeights, report.success)

/-! ## Rule-based fallback allocations -/

/-- Per-asset amounts assigned by
`UnifiedPortfolioOptimizer._create_simple_allocation` (lines 393-426) before
normalization.  The source writes equity amounts first and bond amounts
second (so an index listed in both keeps the bond amount); the `other` bucket
is `range n` minus both index lists and is filled only when its target is
positive. -/
def simpleAllocationRaw (n : ℕ) (equityIdx bondIdx : List ℕ)
    (eqRange : ℚ × ℚ) : List ℚ :=
  let targetEquity := (eqRange.1 + eqRange.2) / 2
  let targetBonds := min 0.4 (1 - targetEquity)
  let targetOther := max 0 (1 - targetEquity - targetBonds)
  let otherIdx := (List.range n).filter fun i => i ∉ equityIdx ∧ i ∉ bondIdx
  (List.range n).map fun i =>
    if i ∈ bondIdx then targetBonds / bondIdx.length
    else if i ∈ equityIdx then targetEquity / equityIdx.length
    else if i ∈ otherIdx ∧ 0 < targetOther then targetOther / otherIdx.length
    else 0

/-- `_create_simple_allocation` line 426: `weights = weights / weights.sum()`
with no guard.  When every raw entry is zero, numpy produces a vector of NaNs
(0/0); with Lean's `x / 0 = 0` convention the result is the zero vector — in
both conventions the produced weights do not sum to 1 in that degenerate
case. -/
def createSimpleAllocation (n : ℕ) (equityIdx bondIdx : List ℕ)
    (eqRange : ℚ × ℚ) : List ℚ :=
  let w := simpleAllocationRaw n equityIdx bondIdx eqRange
  w.map (· / w.sum)

/-- `np.argsort(mean_returns)[::-1]` from `_create_fallback_weights`:
indices sorted by mean return, descending (tie order is unspecified in numpy's
default sort; any sort is a faithful model). -/
def argsortDesc (means : List ℚ) : List ℕ :=
  ((List.range means.length).insertionSort
    fun i j => means.getD i 0 ≤ means.getD j 0).reverse

/-- Per-asset amounts assigned by `SortinoOptimizer._create_fallback_weights`
(lines 275-300) before normalization: the top 5 / 10 / 15 assets by mean
return receive `min(cap, upper_bound)` with cap 0.3 / 0.15 / 0.10 according
to aggressiveness. -/
def fallbackWeightsRaw (aggressiveness : ℚ) (bounds means : List ℚ) : List ℚ :=
  let sorted := argsortDesc means
  let top : List ℕ :=
    if 0.7 < aggressiveness then sorted.take 5
    else if 0.3 < aggressiveness then sorted.take 10
    else sorted.take 15
  let cap : ℚ :=
    if 0.7 < aggressiveness then 0.3
    else if 0.3 < aggressiveness then 0.15
    else 0.10
  (List.range bounds.length).map fun i =>
    if i ∈ top then min cap (bounds.getD i 0) else 0

/-- `SortinoOptimizer._create_fallback_weights` (lines 275-308): normalize
when the raw sum is positive, otherwise fall back to equal weights. -/
def createFallbackWeights (aggressiveness : ℚ) (bounds means : List ℚ) : List ℚ :=
  let w := fallbackWeightsRaw aggressiveness bounds means
  if 0 < w.sum then w.map (· / w.sum)
  else List.replicate bounds.length ((1 : ℚ) / bounds.length)

/-! ## Claim C4 -/

/-- Counterexample for C4 as stated: when the SciPy solver reports
non-convergence without raising (`success = false`), the unified optimizer
still returns `optimization_success = true` and keeps the non-converged
iterate — the flag is not "true only if the solver actually reported
success". -/
theorem C4_unified_flag_counterexample :
    (unifiedOptimizeWeights 2 (.ok [1/2, 1/2])
        (fun _ => .ok { x := [1, 0], success := false }) [1/2, 1/2]).2 = true ∧
    ({ x := [1, 0], success := false } : SolverReport).success = false :=
  ⟨rfl, rfl⟩

/-- C4 (amended): the Sortino optimizer handles non-convergence as the claim
says — no exception, fallback weights, `optimization_success = false`; the
unified optimizer does not: its two stages swallow solver exceptions, so its
flag is true for every solver outcome. -/
theorem C4_nonconvergence_fallback (report : SolverReport) (fb : List ℚ)
    (hfail : report.success = false) :
    sortinoOptimizeWeights report fb = (fb, false) ∧
    ∀ (n : ℕ) (cvxpyStage : Except Unit (List ℚ))
      (scipyStage : List ℚ → Except Unit SolverReport) (ufb : List ℚ),
      (unifiedOptimizeWeights n cvxpyStage scipyStage ufb).2 = true := by
  constructor
  · simp [sortinoOptimizeWeights, hfail]
  · intro n cvxpyStage scipyStage ufb
    unfold unifiedOptimizeWeights solveOptimization
    cases cvxpyStage <;> dsimp only <;> cases scipyStage _ <;> rfl

/-- Witness for C4 at a concrete failed solver report. -/
theorem C4_nonconvergence_fallback_witness :
    ({ x := [1, 0], success := false } : SolverReport).success = false ∧
    (sortinoOptimizeWeights { x := [1, 0], success := false } [1/2, 1/2] =
        ([1/2, 1/2], false) ∧
      ∀ (n : ℕ) (cvxpyStage : Except Unit (List ℚ))
        (scipyStage : List ℚ → Except Unit SolverReport) (ufb : List ℚ),
        (unifiedOptimizeWeights n cvxpyStage scipyStage ufb).2 = true) :=
  ⟨rfl, C4_nonconvergence_fallback { x := [1, 0], success := false } [1/2, 1/2] rfl⟩

/-! ## Claim C5 -/

/-- Dividing every element of a list by `q` divides its sum by `q`. -/
theorem sum_map_div_eq (l : List ℚ) (q : ℚ) :
    (l.map (fun x => x / q)).sum = l.sum / q := by
  induction l with
  | nil => simp
  | cons a t ih => simp [ih, add_div]

/-- `getD` with default 0 preserves a lower bound of 0. -/
theorem getD_nonneg (l : List ℚ) (h : ∀ b ∈ l, 0 ≤ b) (i : ℕ) : 0 ≤ l.getD i 0 := by
  induction l generalizing i with
  | nil => simp [List.getD]
  | cons a t ih =>
    cases i with
    | zero => simpa using h a (by simp)
    | succ j => simpa [List.getD] using ih (fun b hb => h b (by simp [hb])) j

/-- Counterexample for C5 as stated: a non-empty universe whose only asset is
neither equity nor bond, with the Aggressive equity range (0.55, 0.80), gives
target_other = 0, so every raw amount is zero and the unguarded
normalization divides by zero — the produced vector is [0] (a NaN vector in
numpy), which does not sum to 1 within 1e-6. -/
theorem C5_simple_allocation_counterexample :
    createSimpleAllocation 1 [] [] (0.55, 0.80) = [0] ∧
    ¬ |(createSimpleAllocation 1 [] [] (0.55, 0.80)).sum - 1| ≤ 1 / 1000000 := by
  have h : createSimpleAllocation 1 [] [] (0.55, 0.80) = [0] := by
    norm_num [createSimpleAllocation, simpleAllocationRaw, List.range_succ]
  refine ⟨h, ?_⟩
  rw [h]
  norm_num [abs_of_nonpos]

/-- C5 (amended): both rule-based fallback allocators produce weights that sum
to 1 exactly and are all non-negative, provided (for the unified optimizer's
simple allocation) the universe contains an equity or bond asset and the
equity-range midpoint lies strictly between 0 and 1, and (for the Sortino
fallback) the per-asset bounds are non-negative and the universe is
non-empty. -/
theorem C5_fallback_weights_valid
    (n : ℕ) (equityIdx bondIdx : List ℕ) (eqRange : ℚ × ℚ)
    (aggressiveness : ℚ) (bounds means : List ℚ)
    (hrangeE : ∀ i ∈ equityIdx, i < n) (hrangeB : ∀ i ∈ bondIdx, i < n)
    (hne : equityIdx ≠ [] ∨ bondIdx ≠ [])
    (hte0 : 0 < eqRange.1 + eqRange.2) (hte2 : eqRange.1 + eqRange.2 < 2)
    (hb : ∀ b ∈ bounds, (0 : ℚ) ≤ b) (hbn : bounds ≠ []) :
    ((createSimpleAllocation n equityIdx bondIdx eqRange).sum = 1 ∧
      ∀ x ∈ createSimpleAllocation n equityIdx bondIdx eqRange, 0 ≤ x) ∧
    ((createFallbackWeights aggressiveness bounds means).sum = 1 ∧
      ∀ x ∈ createFallbackWeights aggressiveness bounds means, 0 ≤ x) := by
  constructor
  · -- unified `_create_simple_allocation`
    set te := (eqRange.1 + eqRange.2) / 2 with hte
    have hte_pos : 0 < te := by rw [hte]; linarith
    have hte_lt : te < 1 := by rw [hte]; linarith
    have htb_pos : 0 < min 0.4 (1 - te) := lt_min (by norm_num) (by linarith)
    set f : ℕ → ℚ := fun i =>
      if i ∈ bondIdx then min 0.4 (1 - te) / bondIdx.length
      else if i ∈ equityIdx then te / equityIdx.length
      else if i ∈ (List.range n).filter (fun i => i ∉ equityIdx ∧ i ∉ bondIdx) ∧
          0 < max 0 (1 - te - min 0.4 (1 - te)) then
        max 0 (1 - te - min 0.4 (1 - te)) /
          ((List.range n).filter (fun i => i ∉ equityIdx ∧ i ∉ bondIdx)).length
      else 0 with hf
    have hraw : simpleAllocationRaw n equityIdx bondIdx eqRange = (List.range n).map f := rfl
    have hf_nonneg : ∀ i, 0 ≤ f i := by
      intro i
      simp only [hf]
      split_ifs with h1 h2 h3
      · exact div_nonneg htb_pos.le (Nat.cast_nonneg _)
      · exact div_nonneg hte_pos.le (Nat.cast_nonneg _)
      · exact div_nonneg (le_max_left _ _) (Nat.cast_nonneg _)
      · exact le_rfl
    have hw_nonneg : ∀ x ∈ simpleAllocationRaw n equityIdx bondIdx eqRange, 0 ≤ x := by
      rw [hraw]
      intro x hx
      obtain ⟨i, _, rfl⟩ := List.mem_map.mp hx
      exact hf_nonneg i
    obtain ⟨i₀, hi₀mem, hi₀pos⟩ : ∃ i₀, i₀ < n ∧ 0 < f i₀ := by
      rcases hne with hE | hB
      · obtain ⟨i₀, hi₀⟩ := List.exists_mem_of_ne_nil _ hE
        refine ⟨i₀, hrangeE i₀ hi₀, ?_⟩
        simp only [hf]
        by_cases hbm : i₀ ∈ bondIdx
        · rw [if_pos hbm]
          exact div_pos htb_pos (by exact_mod_cast List.length_pos.mpr (by
            intro hnil; rw [hnil] at hbm; simp at hbm))
        · rw [if_neg hbm, if_pos hi₀]
          exact div_pos hte_pos (by exact_mod_cast List.length_pos.mpr (by
            intro hnil; rw [hnil] at hi₀; simp at hi₀))
      · obtain ⟨i₀, hi₀⟩ := List.exists_mem_of_ne_nil _ hB
        refine ⟨i₀, hrangeB i₀ hi₀, ?_⟩
        simp only [hf]
        rw [if_pos hi₀]
        exact div_pos htb_pos (by exact_mod_cast List.length_pos.mpr (by
          intro hnil; rw [hnil] at hi₀; simp at hi₀))
    have hsum_pos : 0 < (simpleAllocationRaw n equityIdx bondIdx eqRange).sum := by
      have hmem : f i₀ ∈ (List.range n).map f :=
        List.mem_map_of_mem f (List.mem_range.mpr hi₀mem)
      calc (0 : ℚ) < f i₀ := hi₀pos
        _ ≤ ((List.range n).map f).sum := by
            refine List.single_le_sum ?_ _ hmem
            intro x hx
            obtain ⟨i, _, rfl⟩ := List.mem_map.mp hx
            exact hf_nonneg i
        _ = (simpleAllocationRaw n equityIdx bondIdx eqRange).sum := by rw [hraw]
    constructor
    · show ((simpleAllocationRaw n equityIdx bondIdx eqRange).map
        (· / (simpleAllocationRaw n equityIdx bondIdx eqRange).sum)).sum = 1
      rw [sum_map_div_eq]
      exact div_self (ne_of_gt hsum_pos)
    · intro x hx
      obtain ⟨y, hy, rfl⟩ := List.mem_map.mp hx
      exact div_nonneg (hw_nonneg y hy) hsum_pos.le
  · -- Sortino `_create_fallback_weights`
    have hcap_pos : (0 : ℚ) <
        (if 0.7 < aggressiveness then 0.3
         else if 0.3 < aggressiveness then 0.15 else 0.10) := by
      split_ifs <;> norm_num
    have hraw_nonneg : ∀ x ∈ fallbackWeightsRaw aggressiveness bounds means, 0 ≤ x := by
      intro x hx
      unfold fallbackWeightsRaw at hx
      obtain ⟨i, _, rfl⟩ := List.mem_map.mp hx
      split_ifs <;>
        first
          | exact le_min (by norm_num) (getD_nonneg bounds hb i)
          | exact le_rfl
    have hlen_ne : ((bounds.length : ℚ)) ≠ 0 := by
      exact_mod_cast fun h => hbn (List.length_eq_zero.mp (by exact_mod_cast h))
    unfold createFallbackWeights
    by_cases hs : 0 < (fallbackWeightsRaw aggressiveness bounds means).sum
    · rw [if_pos hs]
      constructor
      · rw [sum_map_div_eq]
        exact div_self (ne_of_gt hs)
      · intro x hx
        obtain ⟨y, hy, rfl⟩ := List.mem_map.mp hx
        exact div_nonneg (hraw_nonneg y hy) hs.le
    · rw [if_neg hs]
      constructor
      · rw [List.sum_replicate, nsmul_eq_mul]
        field_simp
      · intro x hx
        rw [List.eq_of_mem_replicate hx]
        positivity

/-- Witness for C5 at a two-asset universe (asset 0 equity, asset 1 bond,
Moderate equity range) and a concrete Sortino fallback instance. -/
theorem C5_fallback_weights_valid_witness :
    (∀ i ∈ ([0] : List ℕ), i < 2) ∧ (∀ i ∈ ([1] : List ℕ), i < 2) ∧
    (([0] : List ℕ) ≠ [] ∨ ([1] : List ℕ) ≠ []) ∧
    (0 : ℚ) < ((0.30 : ℚ), (0.65 : ℚ)).1 + ((0.30 : ℚ), (0.65 : ℚ)).2 ∧
    ((0.30 : ℚ), (0.65 : ℚ)).1 + ((0.30 : ℚ), (0.65 : ℚ)).2 < 2 ∧
    (∀ b ∈ [(0.8 : ℚ), 0.5], (0 : ℚ) ≤ b) ∧ ([(0.8 : ℚ), 0.5] ≠ []) ∧
    (((createSimpleAllocation 2 [0] [1] (0.30, 0.65)).sum = 1 ∧
        ∀ x ∈ createSimpleAllocation 2 [0] [1] (0.30, 0.65), 0 ≤ x) ∧
      ((createFallbackWeights (1/2) [0.8, 0.5] [0.1, 0.2]).sum = 1 ∧
        ∀ x ∈ createFallbackWeights (1/2) [0.8, 0.5] [0.1, 0.2], 0 ≤ x)) :=
  ⟨by simp, by simp, Or.inl (by simp), by norm_num, by norm_num,
   by norm_num, by simp,
   C5_fallback_weights_valid 2 [0] [1] (0.30, 0.65) (1/2) [0.8, 0.5] [0.1, 0.2]
     (by simp) (by simp) (Or.inl (by simp)) (by norm_num) (by norm_num)
     (by norm_num) (by simp)⟩

/-! ## Claim C6 — ILS currency conversion (src/portfolio/ils_data_manager.py) -/

/-- The common-date index used by `_convert_asset_to_ils` (line 284):
`asset_returns.index.intersection(fx_returns.index)`, i.e. the asset's dates
that also occur in the FX series.  Series are date-keyed lists. -/
def commonDates (asset fx : List (ℤ × ℚ)) : List ℤ :=
  (asset.map Prod.fst).filter fun d => (fx.map Prod.fst).contains d

/-- Value of a date-keyed series at date `d` (`series.loc[d]`; the lookup is
only used at dates present in the series). -/
def seriesAt (s : List (ℤ × ℚ)) (d : ℤ) : ℚ :=
  match s.find? fun p => p.1 == d with
  | some p => p.2
  | none => 0

/-- `ILSDataManager._convert_asset_to_ils` (monthly branch, lines 278-295):
align the two return series on their common dates; with fewer than 10 common
dates the conversion is abandoned (`None`), otherwise every aligned pair is
converted with `ils_return = (1 + asset_return) * (1 + fx_return) - 1`. -/
def convertAssetToILS (asset fx : List (ℤ × ℚ)) : Option (List (ℤ × ℚ)) :=
  let ds := commonDates asset fx
  if ds.length < 10 then none
  else some (ds.map fun d => (d, (1 + seriesAt asset d) * (1 + seriesAt fx d) - 1))

/-- A series whose every value is zero has `seriesAt` zero everywhere. -/
theorem seriesAt_zero (s : List (ℤ × ℚ)) (hz : ∀ p ∈ s, p.2 = 0) (d : ℤ) :
    seriesAt s d = 0 := by
  unfold seriesAt
  cases h : s.find? fun p => p.1 == d with
  | none => rfl
  | some p => exact hz p (List.mem_of_find?_eq_some h)

/-- C6: whenever the conversion proceeds (at least 10 common dates), every
produced base-currency return is `(1 + r_asset) * (1 + r_fx) - 1` for the
matching-date pair, and an all-zero asset series with an all-zero FX series
yields an all-zero base-currency series. -/
theorem C6_ils_conversion (asset fx : List (ℤ × ℚ))
    (h : ¬ (commonDates asset fx).length < 10) :
    (convertAssetToILS asset fx =
      some ((commonDates asset fx).map fun d =>
        (d, (1 + seriesAt asset d) * (1 + seriesAt fx d) - 1))) ∧
    ((∀ p ∈ asset, p.2 = 0) → (∀ p ∈ fx, p.2 = 0) →
      ∀ out, convertAssetToILS asset fx = some out → ∀ q ∈ out, q.2 = 0) := by
  have heq : convertAssetToILS asset fx =
      some ((commonDates asset fx).map fun d =>
        (d, (1 + seriesAt asset d) * (1 + seriesAt fx d) - 1)) := by
    unfold convertAssetToILS
    simp only [if_neg h]
  refine ⟨heq, fun hza hzf out hout q hq => ?_⟩
  rw [heq] at hout
  obtain rfl := Option.some.inj hout
  obtain ⟨d, _, rfl⟩ := List.mem_map.mp hq
  simp [seriesAt_zero asset hza d, seriesAt_zero fx hzf d]

/-- Witness for C6: the spec's round-trip scenario — an all-zero foreign
return series and an all-zero FX return series over twelve months convert to
an all-zero ILS return series. -/
theorem C6_ils_conversion_witness :
    (¬ (commonDates ((List.range 12).map fun i => ((i : ℤ), (0 : ℚ)))
          ((List.range 12).map fun i => ((i : ℤ), (0 : ℚ)))).length < 10) ∧
    ((convertAssetToILS ((List.range 12).map fun i => ((i : ℤ), (0 : ℚ)))
          ((List.range 12).map fun i => ((i : ℤ), (0 : ℚ)))) =
        some ((commonDates ((List.range 12).map fun i => ((i : ℤ), (0 : ℚ)))
            ((List.range 12).map fun i => ((i : ℤ), (0 : ℚ)))).map fun d =>
          (d, (1 + seriesAt ((List.range 12).map fun i => ((i : ℤ), (0 : ℚ))) d) *
              (1 + seriesAt ((List.range 12).map fun i => ((i : ℤ), (0 : ℚ))) d) - 1)) ∧
      ((∀ p ∈ (List.range 12).map fun i => ((i : ℤ), (0 : ℚ)), p.2 = 0) →
        (∀ p ∈ (List.range 12).map fun i => ((i : ℤ), (0 : ℚ)), p.2 = 0) →
        ∀ out, convertAssetToILS ((List.range 12).map fun i => ((i : ℤ), (0 : ℚ)))
            ((List.range 12).map fun i => ((i : ℤ), (0 : ℚ))) = some out →
          ∀ q ∈ out, q.2 = 0)) := by
  have hlen : ¬ (commonDates ((List.range 12).map fun i => ((i : ℤ), (0 : ℚ)))
      ((List.range 12).map fun i => ((i : ℤ), (0 : ℚ)))).length < 10 := by
    decide
  exact ⟨hlen, C6_ils_conversion _ _ hlen⟩

/-! ## Claim C7 — risk contributions -/

/-- Dot product of two aligned vectors (`a @ b` on aligned numpy arrays;
truncation at the shorter length never occurs at the call sites). -/
def dotQ (a b : List ℚ) : ℚ := (a.zipWith (· * ·) b).sum

/-- Row-major matrix-vector product (`cov_matrix @ weights`). -/
def matVec (m : List (List ℚ)) (w : List ℚ) : List ℚ := m.map fun row => dotQ row w

/-- Risk contributions reported by
`UnifiedPortfolioOptimizer._build_optimization_result` (lines 455-465): only
assets whose weight exceeds the 0.5% materiality threshold are included, each
contributing `w_i * (Σ w)_i / portfolio_vol²` with `portfolio_vol² = wᵀ Σ w`. -/
def unifiedRiskContributions (cov : List (List ℚ)) (w : List ℚ) : List ℚ :=
  ((List.range w.length).filter fun i => 0.005 < w.getD i 0).map fun i =>
    w.getD i 0 * (matVec cov w).getD i 0 / dotQ w (matVec cov w)

/-- First pass of `SortinoPortfolioOptimizer._calculate_risk_contributions`
(lines 146-152): one `weight * annualized_asset_volatility` entry per asset
whose weight exceeds 0.001 (input pairs are (weight, asset volatility);
assets absent from the return matrix are already omitted). -/
def adapterWeightedRisks (pairs : List (ℚ × ℚ)) : List ℚ :=
  (pairs.filter fun p => 0.001 < p.1).map fun p => p.1 * p.2

/-- Second pass (lines 154-158): normalize to sum to 1 when the total
weighted risk is positive, otherwise return the raw values. -/
def adapterRiskContributions (pairs : List (ℚ × ℚ)) : List ℚ :=
  if 0 < (adapterWeightedRisks pairs).sum then
    (adapterWeightedRisks pairs).map (· / (adapterWeightedRisks pairs).sum)
  else adapterWeightedRisks pairs

/-- `dotQ` as an indexed sum over the first vector's positions. -/
theorem dotQ_eq_sum_range (a : List ℚ) : ∀ b : List ℚ,
    dotQ a b = ((List.range a.length).map fun i => a.getD i 0 * b.getD i 0).sum := by
  induction a with
  | nil => intro b; simp [dotQ]
  | cons x t ih =>
    intro b
    cases b with
    | nil =>
      refine (by simp [dotQ] : dotQ (x :: t) [] = 0).trans ?_
      refine (List.sum_eq_zero ?_).symm
      intro y hy
      obtain ⟨i, _, rfl⟩ := List.mem_map.mp hy
      simp [List.getD]
    | cons z s =>
      have hmap : ((List.range (t.length + 1)).map
            fun i => (x :: t).getD i 0 * (z :: s).getD i 0) =
          x * z :: ((List.range t.length).map fun i => t.getD i 0 * s.getD i 0) := by
        rw [List.range_succ_eq_map, List.map_cons, List.map_map]
        rfl
      simp only [List.length_cons, hmap, List.sum_cons]
      simpa [dotQ] using congrArg (x * z + ·) (ih s)

/-- Dropping filtered-out elements whose images are zero does not change a
mapped sum. -/
theorem sum_map_filter_of_zero (l : List ℕ) (p : ℕ → Bool) (f : ℕ → ℚ)
    (h : ∀ i ∈ l, p i = false → f i = 0) :
    ((l.filter p).map f).sum = (l.map f).sum := by
  induction l with
  | nil => simp
  | cons a t ih =>
    have ht := ih fun i hi hp => h i (List.mem_cons_of_mem a hi) hp
    cases hp : p a with
    | true => simp [List.filter_cons, hp, ht]
    | false => simp [List.filter_cons, hp, ht, h a (List.mem_cons_self a t) hp]

/-- Counterexample for C7 as stated: with covariance diag(100, 1) and weights
(0.005, 0.995) — both non-zero — the sub-threshold first asset is dropped
from the report and the reported contributions sum to 39601/39701 ≈ 0.99748,
which misses 1.0 by more than 1e-4. -/
theorem C7_threshold_gap_counterexample :
    (unifiedRiskContributions [[100, 0], [0, 1]] [1/200, 199/200]).sum =
      39601 / 39701 ∧
    ¬ |(39601 / 39701 : ℚ) - 1| ≤ 1 / 10000 := by
  constructor
  · norm_num [unifiedRiskContributions, matVec, dotQ, List.range_succ,
      List.filter_append, List.filter_cons, List.getD]
  · rw [abs_of_nonpos (by norm_num)]
    norm_num

/-- C7 (amended): the unified optimizer's reported contributions sum to
exactly 1 whenever every asset with non-zero weight clears the 0.5%
reporting threshold (and the portfolio variance is non-zero) — in general
the reported sum falls short by exactly the contributions of sub-threshold
assets — and the Sortino adapter's normalized contributions sum to exactly 1
whenever the total weighted risk is positive. -/
theorem C7_contributions_sum (cov : List (List ℚ)) (w : List ℚ)
    (hall : ∀ i, i < w.length → w.getD i 0 ≠ 0 → 0.005 < w.getD i 0)
    (hq : dotQ w (matVec cov w) ≠ 0)
    (pairs : List (ℚ × ℚ)) (hpos : 0 < (adapterWeightedRisks pairs).sum) :
    (unifiedRiskContributions cov w).sum = 1 ∧
    (adapterRiskContributions pairs).sum = 1 := by
  constructor
  · unfold unifiedRiskContributions
    rw [sum_map_filter_of_zero _ _ _ ?hzero]
    case hzero =>
      intro i hi hp
      have hwz : w.getD i 0 = 0 := by
        by_contra hne
        have hgt := hall i (List.mem_range.mp hi) hne
        simp only [decide_eq_false_iff_not, not_lt] at hp
        exact absurd hgt (not_lt.mpr hp)
      rw [hwz, zero_mul, zero_div]
    rw [show (fun i => w.getD i 0 * (matVec cov w).getD i 0 / dotQ w (matVec cov w)) =
        (fun x => x / dotQ w (matVec cov w)) ∘
          fun i => w.getD i 0 * (matVec cov w).getD i 0 from rfl,
      ← List.map_map, sum_map_div_eq, ← dotQ_eq_sum_range, div_self hq]
  · unfold adapterRiskContributions
    rw [if_pos hpos, sum_map_div_eq, div_self (ne_of_gt hpos)]

/-- Witness for C7 at an identity covariance with equal weights and a
two-asset adapter input. -/
theorem C7_contributions_sum_witness :
    (∀ i, i < ([1/2, 1/2] : List ℚ).length → ([1/2, 1/2] : List ℚ).getD i 0 ≠ 0 →
        0.005 < ([1/2, 1/2] : List ℚ).getD i 0) ∧
    dotQ [1/2, 1/2] (matVec [[1, 0], [0, 1]] [1/2, 1/2]) ≠ 0 ∧
    0 < (adapterWeightedRisks [(1/2, 2), (1/2, 1)]).sum ∧
    ((unifiedRiskContributions [[1, 0], [0, 1]] [1/2, 1/2]).sum = 1 ∧
      (adapterRiskContributions [(1/2, 2), (1/2, 1)]).sum = 1) := by
  have h1 : ∀ i, i < ([1/2, 1/2] : List ℚ).length →
      ([1/2, 1/2] : List ℚ).getD i 0 ≠ 0 → 0.005 < ([1/2, 1/2] : List ℚ).getD i 0 := by
    intro i hi _
    have hi2 : i < 2 := by simpa using hi
    interval_cases i <;> norm_num [List.getD]
  have h2 : dotQ [1/2, 1/2] (matVec [[1, 0], [0, 1]] [1/2, 1/2]) ≠ 0 := by
    norm_num [dotQ, matVec]
  have h3 : 0 < (adapterWeightedRisks [((1:ℚ)/2, (2:ℚ)), ((1:ℚ)/2, (1:ℚ))]).sum := by
    norm_num [adapterWeightedRisks, List.filter_cons]
  exact ⟨h1, h2, h3, C7_contributions_sum [[1, 0], [0, 1]] [1/2, 1/2] h1 h2
    [(1/2, 2), (1/2, 1)] h3⟩

/-! ## Claim C8 — KYC-to-parameters mapping (src/portfolio/unified_optimizer.py) -/

/-- `OptimizationParams` dataclass (lines 29-51), numeric fields. -/
structure OptimizationParams where
  risk_aversion_lambda : ℚ
  cvar_penalty_alpha : ℚ
  vol_penalty_beta : ℚ
  concentration_penalty_gamma : ℚ
  skewness_reward_delta : ℚ
  target_volatility : ℚ
  target_cvar : ℚ
  max_volatility : ℚ
  max_cvar : ℚ
  equity_range : ℚ × ℚ
  max_single_asset : ℚ
  composite_score : ℚ
deriving DecidableEq

/-- `map_kyc_to_optimization_params` (lines 79-149).  The source reads
`composite_score` from the passed profile and `loss_tolerance` /
`horizon_score` through `getattr` with the composite as default; we take the
three raw 0-100 quantities as explicit inputs (the `experience_score` it also
extracts is never used). -/
def mapKycToOptimizationParams (composite loss horizon : ℚ) : OptimizationParams :=
  let s := composite / 100
  let lossTolerance := loss / 100
  let horizonScore := horizon / 100
  let horizonFactor := max 0.2 horizonScore
  let targetVolatility := 0.04 + s * 0.18
  let equityRangeRaw : ℚ × ℚ :=
    if composite ≤ 25 then (0.05, 0.20)
    else if composite ≤ 45 then (0.15, 0.40)
    else if composite ≤ 65 then (0.30, 0.65)
    else if composite ≤ 85 then (0.55, 0.80)
    else (0.70, 0.95)
  let maxCvarRaw := 0.03 + s * 0.37
  { risk_aversion_lambda := 8 * (1 - lossTolerance) + 0.5 * lossTolerance
    cvar_penalty_alpha := 6 * (1 - lossTolerance) * (1 + 0.5 * (1 - horizonFactor))
    vol_penalty_beta := 5 * (1 - s) + 1 * s
    concentration_penalty_gamma := 3 * (1 - s) + 0.2 * s
    skewness_reward_delta := max 0 (s - 0.4) * 2
    target_volatility := targetVolatility
    target_cvar := 0.03 + s * 0.12
    max_volatility := targetVolatility + 0.03
    max_cvar := if horizonScore < 0.3 then min maxCvarRaw 0.08 else maxCvarRaw
    equity_range :=
      if horizonScore < 0.3 then (equityRangeRaw.1, min equityRangeRaw.2 0.5)
      else equityRangeRaw
    max_single_asset := 0.15 + s * 0.25
    composite_score := composite }

/-- C8: holding the other dimensions fixed, a larger composite score never
decreases the equity-range upper bound, and `max_single_asset` is exactly the
linear function `0.15 + 0.25 * (composite / 100)` — 15% at score 0 up to 40%
at score 100 — hence also non-decreasing. -/
theorem C8_params_monotone (loss horizon c₁ c₂ : ℚ) (h : c₁ ≤ c₂) :
    (mapKycToOptimizationParams c₁ loss horizon).equity_range.2 ≤
      (mapKycToOptimizationParams c₂ loss horizon).equity_range.2 ∧
    (∀ c, (mapKycToOptimizationParams c loss horizon).max_single_asset =
      0.15 + 0.25 * (c / 100)) := by
  constructor
  · show (if horizon / 100 < 0.3 then _ else _ : ℚ × ℚ).2 ≤
      (if horizon / 100 < 0.3 then _ else _ : ℚ × ℚ).2
    by_cases hh : horizon / 100 < 0.3 <;>
      simp only [if_pos, if_neg, hh, if_true, if_false, ite_true, ite_false] <;>
      split_ifs <;>
      push_neg at * <;>
      first
        | linarith
        | exact min_le_min (by norm_num) le_rfl
  · intro c
    show (0.15 : ℚ) + c / 100 * 0.25 = 0.15 + 0.25 * (c / 100)
    ring

/-- Witness for C8 at composite scores 20 ≤ 90 with loss 70, horizon 50. -/
theorem C8_params_monotone_witness :
    (20 : ℚ) ≤ 90 ∧
    ((mapKycToOptimizationParams 20 70 50).equity_range.2 ≤
        (mapKycToOptimizationParams 90 70 50).equity_range.2 ∧
      ∀ c, (mapKycToOptimizationParams c 70 50).max_single_asset =
        0.15 + 0.25 * (c / 100)) :=
  ⟨by norm_num, C8_params_monotone 70 50 20 90 (by norm_num)⟩

/-! ## Claim C9 — Sortino computations (src/portfolio/sortino_optimizer.py,
src/portfolio/analytics.py)

These computations involve square roots and real exponents, so they are
embedded over ℝ. -/

/-- Mean of a pandas series (`series.mean()`); under Lean's `x / 0 = 0`
convention an empty series has mean 0. -/
noncomputable def seriesMean (l : List ℝ) : ℝ := l.sum / l.length

/-- Sample standard deviation of a pandas series (`series.std()`, ddof = 1).
pandas yields NaN for fewer than two observations; under Lean's division
convention the value is then 0 — the `> 0` guards downstream take the same
branch either way. -/
noncomputable def seriesStd (l : List ℝ) : ℝ :=
  Real.sqrt ((l.map fun x => (x - seriesMean l) ^ 2).sum / ((l.length : ℝ) - 1))

/-- Row-wise portfolio returns `returns_data @ weights`. -/
noncomputable def portfolioReturnsR (data : List (List ℝ)) (w : List ℝ) : List ℝ :=
  data.map fun row => (row.zipWith (· * ·) w).sum

/-- `SortinoOptimizer.calculate_sortino_ratio` (lines 135-157): annualize the
mean monthly portfolio return, take the standard deviation of the
negative-return periods only (annualized by √12), substitute the small
positive floor 0.001 when there are no negative periods, and divide the
excess return by it. -/
noncomputable def calculateSortino (data : List (List ℝ)) (w : List ℝ) (rf : ℝ) : ℝ :=
  let pr := portfolioReturnsR data w
  let expectedReturn := seriesMean pr * 12
  let downside := pr.filter fun x => x < 0
  let downsideDeviation :=
    if 0 < downside.length then seriesStd downside * Real.sqrt 12 else 0.001
  (expectedReturn - rf) / downsideDeviation

/-- `PortfolioAnalytics.calculate_comprehensive_metrics` (analytics.py lines
67-126) restricted to its `sortino_ratio` field.  Fewer than 30 observations
raise a `ValueError` (`none`); otherwise the annualized return is compounded
from the total return and the Sortino ratio is
`(annualized - rf) / downside_deviation` when the downside deviation is
positive, else 0 (pandas gives a NaN downside deviation when no negative
periods exist and `NaN > 0` is false — the same branch as Lean's 0). -/
noncomputable def analyticsSortino (returns : List ℝ) (rf : ℝ) : Option ℝ :=
  if returns.length < 30 then none
  else
    let totalReturn := (returns.map fun r => 1 + r).prod - 1
    let annualizedReturn := (1 + totalReturn) ^ ((252 : ℝ) / returns.length) - 1
    let downside := returns.filter fun x => x < 0
    let downsideDeviation := seriesStd downside * Real.sqrt 252
    some (if 0 < downsideDeviation then (annualizedReturn - rf) / downsideDeviation else 0)

/-- Modelled from the spec: "if no negative periods exist, substitute a small
positive floor (e.g. 0.001)" — the analytics Sortino computation as §4.5
describes it, substituting the 0.001 floor where the source instead guards on
`downside_deviation > 0`.  Declared only to compare the spec's words with the
source. -/
noncomputable def analyticsSortinoFloored (returns : List ℝ) (rf : ℝ) : Option ℝ :=
  if returns.length < 30 then none
  else
    let totalReturn := (returns.map fun r => 1 + r).prod - 1
    let annualizedReturn := (1 + totalReturn) ^ ((252 : ℝ) / returns.length) - 1
    let downside := returns.filter fun x => x < 0
    let downsideDeviation :=
      if 0 < downside.length then seriesStd downside * Real.sqrt 252 else 0.001
    some ((annualizedReturn - rf) / downsideDeviation)

/-- The sample standard deviation of an empty series is 0 in this embedding
(NaN in pandas; both fail a `> 0` guard). -/
theorem seriesStd_nil : seriesStd ([] : List ℝ) = 0 := by
  unfold seriesStd seriesMean
  simp

/-- A series with no negative entries filters to the empty downside list. -/
theorem downside_filter_nil (l : List ℝ) (h : ∀ x ∈ l, 0 ≤ x) :
    (l.filter fun x => x < 0) = [] := by
  rw [List.filter_eq_nil_iff]
  intro a ha
  simp only [decide_eq_true_eq, not_lt]
  exact h a ha

/-- Counterexample for C9 as stated: on thirty zero-return periods (no
negative periods) the analytics Sortino computation does NOT substitute the
0.001 floor — it returns 0 through its `downside_deviation > 0` guard —
whereas the spec's floored formula would give (0 - 0.02) / 0.001 = -20. -/
theorem C9_analytics_no_floor_counterexample :
    analyticsSortino (List.replicate 30 0) (2 / 100) = some 0 ∧
    analyticsSortinoFloored (List.replicate 30 0) (2 / 100) = some (-20) ∧
    (0 : ℝ) ≠ -20 := by
  have hfilter : ((List.replicate 30 (0 : ℝ)).filter fun x => x < 0) = [] :=
    downside_filter_nil _ fun x hx => le_of_eq (List.eq_of_mem_replicate hx).symm
  refine ⟨?_, ?_, by norm_num⟩
  · unfold analyticsSortino
    rw [if_neg (by norm_num)]
    simp [hfilter, seriesStd_nil]
  · unfold analyticsSortinoFloored
    rw [if_neg (by norm_num)]
    simp only [hfilter, List.map_replicate, List.prod_replicate, List.length_replicate,
      List.length_nil, lt_self_iff_false, if_false]
    norm_num [Real.one_rpow]

/-- C9 (amended): for every portfolio return series with no negative-return
period, the optimizer's Sortino computation substitutes the 0.001 floor for
the downside deviation and returns the well-defined finite value
`(annualized_mean - rf) / 0.001`; the analytics Sortino computation does not
divide by zero either, but instead of the floor it takes its
`downside_deviation > 0` guard's else-branch and returns 0. -/
theorem C9_sortino_no_negative_periods (data : List (List ℝ)) (w : List ℝ) (rf : ℝ)
    (hpos : ∀ x ∈ portfolioReturnsR data w, 0 ≤ x)
    (returns : List ℝ) (rf2 : ℝ)
    (hlen : ¬ returns.length < 30) (hpos2 : ∀ x ∈ returns, 0 ≤ x) :
    calculateSortino data w rf =
      (seriesMean (portfolioReturnsR data w) * 12 - rf) / 0.001 ∧
    analyticsSortino returns rf2 = some 0 := by
  constructor
  · unfold calculateSortino
    simp [downside_filter_nil _ hpos]
  · unfold analyticsSortino
    rw [if_neg hlen]
    simp [downside_filter_nil _ hpos2, seriesStd_nil]

/-- Witness for C9 at a one-asset, one-period, all-positive dataset and a
thirty-period all-zero analytics series. -/
theorem C9_sortino_no_negative_periods_witness :
    (∀ x ∈ portfolioReturnsR [[1 / 100]] [1], (0 : ℝ) ≤ x) ∧
    (¬ (List.replicate 30 (0 : ℝ)).length < 30) ∧
    (∀ x ∈ List.replicate 30 (0 : ℝ), (0 : ℝ) ≤ x) ∧
    (calculateSortino [[1 / 100]] [1] 0 =
        (seriesMean (portfolioReturnsR [[1 / 100]] [1]) * 12 - 0) / 0.001 ∧
      analyticsSortino (List.replicate 30 (0 : ℝ)) 1 = some 0) := by
  have h1 : ∀ x ∈ portfolioReturnsR [[1 / 100]] [1], (0 : ℝ) ≤ x := by
    intro x hx
    simp only [portfolioReturnsR, List.map_cons, List.map_nil, List.zipWith,
      List.mem_cons, List.not_mem_nil, or_false] at hx
    norm_num [hx]
  have h2 : ¬ (List.replicate 30 (0 : ℝ)).length < 30 := by simp
  have h3 : ∀ x ∈ List.replicate 30 (0 : ℝ), (0 : ℝ) ≤ x := fun x hx =>
    le_of_eq (List.eq_of_mem_replicate hx).symm
  exact ⟨h1, h2, h3, C9_sortino_no_negative_periods [[1 / 100]] [1] 0 h1
    (List.replicate 30 0) 1 h2 h3⟩
